import Mathlib

/-
Verification of the Travel-Planning-Agent (ADK) repository.

Shallow embedding of the pure logic of the three source files:
  Travel Agent ADK/tools_adk.py  (knowledge-base search, web search,
    flight-price search, weather stub, preference store)
  main_adk.py                    (session map, chat endpoint)
  build_rag.py                   (offline knowledge-base construction)

External effects (the faiss nearest-neighbor search, the outbound HTTP
call, the filesystem, the LLM runner) are passed in explicitly as data
or as oracle functions, so every embedded operation is a total Lean
function of its inputs.
-/

namespace TravelAgent

/-! ## Knowledge-base search (tools_adk.py, kb_search) -/

/-- State of the module-level knowledge base in tools_adk.py:
`kb_index` is `none` when the index object is `None`, otherwise
`some ntotal` carrying the number of stored vectors; `kb_texts` is the
parallel chunk-text list loaded from the texts JSON file. -/
structure KBState where
  kb_index : Option Nat
  kb_texts : List String
deriving DecidableEq

/-- One element of the `results` list built by `kb_search`.  The source
stores `float(dist)` as the score; no arithmetic is ever performed on
it, so the distance is carried as an abstract integer-coded numeric
value. -/
structure KBSearchHit where
  text : String
  score : Int
  index : Nat
deriving DecidableEq

/-- The dictionary returned by `kb_search`: the query, the result list,
and the `message` key (present only on the empty-knowledge-base path). -/
structure KBSearchResult where
  query : String
  results : List KBSearchHit
  message : Option String
deriving DecidableEq

/-- Embedding of `kb_search` (tools_adk.py lines 47-70).  The faiss call
`kb_index.search(q_vec, top_k)` is abstracted as the `search` oracle,
returning the row of distances and the row of neighbor indices
(faiss reports missing neighbors as index -1).  The Python loop
`for dist, idx in zip(distances[0], indices[0])` with its bounds check
and `continue` is the `filterMap` over the zipped rows. -/
def kb_search (st : KBState) (search : String → Nat → List Int × List Int)
    (query : String) (top_k : Nat) : KBSearchResult :=
  if st.kb_index = none ∨ st.kb_index = some 0 ∨ st.kb_texts = [] then
    { query := query, results := [], message := some "Knowledge base is empty." }
  else
    let rows := search query top_k
    let results := (rows.1.zip rows.2).filterMap (fun p =>
      if p.2 < 0 ∨ (st.kb_texts.length : Int) ≤ p.2 then none
      else some { text := st.kb_texts.getD p.2.toNat ""
                  score := p.1
                  index := p.2.toNat })
    { query := query, results := results, message := none }

/-! ## Web search and flight-price search (tools_adk.py) -/

/-- The two optional search credentials read from the environment.
Python truthiness: `not api_key` holds when the variable is unset or
set to the empty string. -/
structure Env where
  custom_search_api_key : Option String
  custom_search_cx : Option String
deriving DecidableEq

/-- Python truthiness of an optional environment string. -/
def envTruthy : Option String → Bool
  | none => false
  | some s => !s.isEmpty

/-- Query parameters of the outbound Custom Search GET request. -/
structure RequestParams where
  key : String
  cx : String
  q : String
  num : Nat
deriving DecidableEq

/-- One item of the `items` array of a Custom Search response; each of
the three fields may be absent (the source reads them with
`item.get(..., "")`). -/
structure RawItem where
  title : Option String
  snippet : Option String
  link : Option String
deriving DecidableEq

/-- The (title, snippet, url) record the tools map each response item to. -/
structure SearchItem where
  title : String
  snippet : String
  url : String
deriving DecidableEq

/-- Outcome of the outbound HTTP GET: either `requests.get` raised
(network error, timeout), or a response arrived with a status code, a
body text, and the parsed `items` array (`data.get("items", [])`). -/
inductive HttpOutcome where
  | exn (msg : String)
  | response (status : Nat) (text : String) (items : List RawItem)
deriving DecidableEq

/-- Mapping of one response item, from the loop bodies of `web_search`
and `search_flight_price`. -/
def itemToResult (it : RawItem) : SearchItem :=
  { title := it.title.getD ""
    snippet := it.snippet.getD ""
    url := it.link.getD "" }

/-- Dictionary returned by `web_search`: `error` and `message` keys are
absent on the success path, so they are optional. -/
structure WebSearchResult where
  query : String
  results : List SearchItem
  error : Option String
  source : String
deriving DecidableEq

/-- The `params` dictionary both tools build before the GET request. -/
def searchParams (env : Env) (q : String) (n : Nat) : RequestParams :=
  { key := env.custom_search_api_key.getD ""
    cx := env.custom_search_cx.getD ""
    q := q, num := n }

/-- Embedding of `web_search` (tools_adk.py lines 72-124).  The network
is the `http` oracle from request parameters to an outcome. -/
def web_search (env : Env) (http : RequestParams → HttpOutcome)
    (query : String) (max_results : Nat) : WebSearchResult :=
  if !envTruthy env.custom_search_api_key || !envTruthy env.custom_search_cx then
    { query := query, results := []
      error := some "Missing CUSTOM_SEARCH_API_KEY or CUSTOM_SEARCH_CX in environment."
      source := "google_custom_search" }
  else
    match http (searchParams env query max_results) with
    | .exn e =>
      { query := query, results := []
        error := some ("Request error: " ++ e)
        source := "google_custom_search" }
    | .response status text items =>
      if status ≠ 200 then
        { query := query, results := []
          error := some ("HTTP " ++ toString status ++ ": " ++ text)
          source := "google_custom_search" }
      else
        { query := query
          results := (items.take max_results).map itemToResult
          error := none
          source := "google_custom_search" }

/-- Dictionary returned by `search_flight_price`: it carries the origin,
destination and date instead of the query string. -/
structure FlightSearchResult where
  origin : String
  destination : String
  date : String
  results : List SearchItem
  error : Option String
  source : String
deriving DecidableEq

/-- The query string `search_flight_price` formats before searching. -/
def flightQuery (origin destination date : String) : String :=
  origin ++ " to " ++ destination ++ " flight " ++ date ++ " price"

/-- Embedding of `search_flight_price` (tools_adk.py lines 126-187). -/
def search_flight_price (env : Env) (http : RequestParams → HttpOutcome)
    (origin destination date : String) (max_results : Nat) : FlightSearchResult :=
  if !envTruthy env.custom_search_api_key || !envTruthy env.custom_search_cx then
    { origin := origin, destination := destination, date := date, results := []
      error := some "Missing CUSTOM_SEARCH_API_KEY or CUSTOM_SEARCH_CX in environment."
      source := "google_custom_search" }
  else
    match http (searchParams env (flightQuery origin destination date) max_results) with
    | .exn e =>
      { origin := origin, destination := destination, date := date, results := []
        error := some ("Request error: " ++ e)
        source := "google_custom_search" }
    | .response status text items =>
      if status ≠ 200 then
        { origin := origin, destination := destination, date := date, results := []
          error := some ("HTTP " ++ toString status ++ ": " ++ text)
          source := "google_custom_search" }
      else
        { origin := origin, destination := destination, date := date
          results := (items.take max_results).map itemToResult
          error := none
          source := "google_custom_search" }

/-! ## Weather stub (tools_adk.py, get_weather) -/

/-- Record returned by `get_weather`.  The source literals 24.0 and 0.2
are exact decimal constants never computed with, carried as rationals. -/
structure WeatherResult where
  location : String
  date : String
  summary : String
  temperature_celsius : ℚ
  precipitation_chance : ℚ
  source : String
deriving DecidableEq

/-- Embedding of `get_weather` (tools_adk.py lines 189-197). -/
def get_weather (location : String) (date : String := "today") : WeatherResult :=
  { location := location
    date := date
    summary := "Partly cloudy with mild temperatures."
    temperature_celsius := 24
    precipitation_chance := 1/5
    source := "mock_weather_service" }

/-! ## Preference store (tools_adk.py, save_preference / load_preferences) -/

/-- Observable state of the preferences file: `none` when the read or
the JSON parse fails (file missing or corrupt), `some l` when the file
parses and its `preferences` key yields the list `l` (the source
defaults a missing key to the empty list, which folds into this model). -/
def PrefsFile : Type := Option (List String)

/-- Dictionary returned by `save_preference`. -/
structure SavePrefResult where
  status : String
  saved_preference : String
  total_preferences : Nat
deriving DecidableEq

/-- Embedding of `save_preference` (tools_adk.py lines 199-214): read
the document defaulting to the empty list on any failure, append,
rewrite the whole document, return the count. The second component is
the rewritten file state. -/
def save_preference (file : PrefsFile) (preference : String) :
    SavePrefResult × PrefsFile :=
  let prefs := (file.getD []) ++ [preference]
  ({ status := "ok", saved_preference := preference
     total_preferences := prefs.length }, some prefs)

/-- Embedding of `load_preferences` (tools_adk.py lines 216-223). -/
def load_preferences (file : PrefsFile) : List String :=
  file.getD []

/-- The list of counts returned by a sequence of `save_preference`
calls threaded through the file state, one count per call. -/
def saveCounts : PrefsFile → List String → List Nat
  | _, [] => []
  | file, x :: xs =>
    let r := save_preference file x
    r.1.total_preferences :: saveCounts r.2 xs

/-! ## Session map (main_adk.py, get_or_create_session_id) -/

/-- Process state around the session map: the `user_sessions` dict as an
association list with distinct keys, plus the number of
`create_session` calls made so far (the counting stub of the spec). -/
structure SessionState where
  user_sessions : List (String × String)
  created : Nat
deriving DecidableEq

/-- Embedding of `get_or_create_session_id` (main_adk.py lines 65-74).
`newId` abstracts `runner.session_service.create_session`, producing an
opaque session id from the creation counter; a creation bumps the
counter by one. -/
def get_or_create_session_id (newId : Nat → String) (st : SessionState)
    (user_id : String) : String × SessionState :=
  match st.user_sessions.lookup user_id with
  | some sid => (sid, st)
  | none =>
    let sid := newId st.created
    (sid, { user_sessions := st.user_sessions ++ [(user_id, sid)]
            created := st.created + 1 })

/-! ## Chat endpoint (main_adk.py, chat_endpoint) -/

/-- One part of an event content; `text` is `none` when the attribute is
missing or `None`. -/
structure Part where
  text : Option String
deriving DecidableEq

/-- Content of one streamed event. -/
structure EventContent where
  parts : List Part
deriving DecidableEq

/-- One event yielded by `runner.run_async`; `content` is `none` when
the event carries no content. -/
structure Event where
  content : Option EventContent
deriving DecidableEq

/-- Python truthiness of an optional text attribute:
`getattr(part, "text", None)` is truthy iff present and non-empty. -/
def textTruthy : Option String → Bool
  | none => false
  | some s => !s.isEmpty

/-- The `text_parts` list accumulated by the event loop of
`chat_endpoint` (main_adk.py lines 84-94): for each event whose content
and parts are truthy, every part with truthy text contributes it. -/
def collectTexts (events : List Event) : List String :=
  events.foldl (fun acc ev =>
    match ev.content with
    | none => acc
    | some c =>
      if c.parts.isEmpty then acc
      else acc ++ c.parts.filterMap (fun p =>
        if textTruthy p.text then p.text else none)) []

/-- Python whitespace characters stripped by `str.strip()` on ASCII
text. -/
def pyIsSpace (c : Char) : Bool :=
  c = ' ' || c = '\t' || c = '\n' || c = '\x0d' ||
  c = '\x0b' || c = '\x0c'

/-- Embedding of Python `str.strip()`: drop leading and trailing
whitespace. -/
def pyStrip (s : String) : String :=
  ⟨((s.data.dropWhile pyIsSpace).reverse.dropWhile pyIsSpace).reverse⟩

/-- Outcome of one `runner.run_async` generation turn: either an
exception with its message, or the list of streamed events. -/
inductive RunOutcome where
  | raises (msg : String)
  | events (evs : List Event)
deriving DecidableEq

/-- JSON body returned by the chat endpoint. -/
structure ChatResponse where
  user_id : String
  response : String
deriving DecidableEq

/-- Embedding of the body of `chat_endpoint` (main_adk.py lines 76-102)
after session resolution: consume the generation outcome, join the
collected fragments, strip, fall back when blank, and convert an
exception into the error message. -/
def chat_endpoint (run : RunOutcome) (user_id : String) : ChatResponse :=
  match run with
  | .raises e =>
    { user_id := user_id, response := "Sorry, I encountered an error: " ++ e }
  | .events evs =>
    let final_text := pyStrip (String.join (collectTexts evs))
    if final_text = "" then
      { user_id := user_id, response := "Sorry, I could not generate a response." }
    else
      { user_id := user_id, response := final_text }

/-! ## Knowledge-base construction and the serving-layer load paths
(build_rag.py and tools_adk.py module initialization) -/

/-- tools_adk.py line 17: the path of the serialized index the tool
layer reads. -/
def KB_INDEX_PATH : String := "data/knowledge_base.faiss"

/-- tools_adk.py line 18: the path of the parallel JSON chunk-text array
the tool layer reads. -/
def KB_TEXTS_PATH : String := "data/knowledge_base_texts.json"

/-- build_rag.py line 10: the path argument the builder passes to
`create_vector_store` for the knowledge base. -/
def KNOWLEDGE_BASE_PATH : String := "data/knowledge_base.faiss"

/-- build_rag.py line 11: the path argument for the preference store. -/
def USER_PREFS_PATH : String := "data/user_prefs.faiss"

/-- File paths written by `create_vector_store` (build_rag.py lines
57-94): when the chunk list is empty it logs and returns without
writing; otherwise the only write is `vector_store.save_local(file_path)`,
whose written paths are given by the `saveLocal` oracle applied to
`file_path`. -/
def create_vector_store_writes (saveLocal : String → List String)
    (chunks : List String) (file_path : String) : List String :=
  if chunks.isEmpty then [] else saveLocal file_path

/-- File paths written by `main()` of build_rag.py (lines 97-122): one
`create_vector_store` call for the knowledge base and one for the
preference placeholder store.  Both chunk lists are non-empty for the
fixed documents in the file, which the `kbChunks`/`prefChunks`
arguments witness. -/
def build_rag_writes (saveLocal : String → List String)
    (kbChunks prefChunks : List String) : List String :=
  create_vector_store_writes saveLocal kbChunks KNOWLEDGE_BASE_PATH ++
  create_vector_store_writes saveLocal prefChunks USER_PREFS_PATH

/-- tools_adk.py line 24: the knowledge base is loaded at startup only
when both fixed paths exist. -/
def kb_load_guard (exists_path : String → Bool) : Bool :=
  exists_path KB_INDEX_PATH && exists_path KB_TEXTS_PATH

/-- Proposition that at least one of the two required search credentials
is absent or empty in the environment. -/
def credsMissing (env : Env) : Prop :=
  envTruthy env.custom_search_api_key = false ∨
  envTruthy env.custom_search_cx = false

/-- Proposition that the outbound call failed: the request raised, or a
response arrived whose status code is not 200. -/
def httpFailed : HttpOutcome → Prop
  | .exn _ => True
  | .response status _ _ => status ≠ 200

/-- Proposition that the session map has at most one entry per user
identifier. -/
def keysNodup (st : SessionState) : Prop :=
  (st.user_sessions.map Prod.fst).Nodup

/-- Interface contract of the vector-store save call: it persists the
store at the given path, so every path it writes is the path itself or
a path inside it (a file in the directory it creates there, whose path
therefore starts with the target path followed by a separator). -/
def SaveLocalContract (saveLocal : String → List String) : Prop :=
  ∀ p q, q ∈ saveLocal p → q = p ∨ (p ++ "/").data.isPrefixOf q.data

end TravelAgent

namespace TravelAgent

/-! ## Theorems -/

/-- Helper: membership in the keys of the session map determined by
lookup. -/
theorem lookup_none_not_key {l : List (String × String)} {u : String} :
    l.lookup u = none → ∀ p ∈ l, p.1 ≠ u := by
  induction l with
  | nil => intro _ p hp; cases hp
  | cons a t ih =>
    intro h p hp
    by_cases hau : u = a.1
    · subst hau
      simp [List.lookup] at h
    · have hbeq : (u == a.1) = false := by
        simpa using hau
      rw [List.mem_cons] at hp
      rcases hp with hp | hp
      · subst hp
        exact fun he => hau he.symm
      · apply ih _ p hp
        simpa [List.lookup, hbeq] using h


/-- Claim C1: for every query and every result count, on a non-empty
knowledge base `kb_search` returns at most `top_k` results, each result
index lies inside the chunk-text list and its text is exactly the chunk
stored at that index, and the hypothesis on the oracle states the faiss
interface contract that each returned row has at most `top_k` entries. -/
theorem kb_search_bounded_and_verbatim
    (st : KBState) (search : String → Nat → List Int × List Int)
    (query : String) (top_k : Nat)
    (hidx : st.kb_index ≠ none) (hn : st.kb_index ≠ some 0)
    (htexts : st.kb_texts ≠ [])
    (hlen : (search query top_k).1.length ≤ top_k) :
    (kb_search st search query top_k).results.length ≤ top_k ∧
    ∀ hit ∈ (kb_search st search query top_k).results,
      hit.index < st.kb_texts.length ∧
      hit.text = st.kb_texts.getD hit.index "" := by
  have hcond : ¬(st.kb_index = none ∨ st.kb_index = some 0 ∨ st.kb_texts = []) := by
    tauto
  unfold kb_search
  rw [if_neg hcond]
  constructor
  · calc (((search query top_k).1.zip (search query top_k).2).filterMap _).length
        ≤ ((search query top_k).1.zip (search query top_k).2).length :=
          List.length_filterMap_le _ _
      _ = min (search query top_k).1.length (search query top_k).2.length :=
          List.length_zip _ _
      _ ≤ (search query top_k).1.length := min_le_left _ _
      _ ≤ top_k := hlen
  · intro hit hmem
    simp only [List.mem_filterMap] at hmem
    obtain ⟨p, _, hfp⟩ := hmem
    by_cases hb : p.2 < 0 ∨ (st.kb_texts.length : Int) ≤ p.2
    · rw [if_pos hb] at hfp
      cases hfp
    · rw [if_neg hb] at hfp
      push_neg at hb
      obtain ⟨hge, hlt⟩ := hb
      cases hfp
      refine ⟨?_, rfl⟩
      show p.2.toNat < st.kb_texts.length
      omega

/-- Witness for C1 at a concrete one-chunk knowledge base and a
one-neighbor oracle. -/
theorem kb_search_bounded_and_verbatim_witness :
    ((⟨some 1, ["alps"]⟩ : KBState).kb_index ≠ none ∧
     (⟨some 1, ["alps"]⟩ : KBState).kb_index ≠ some 0 ∧
     (⟨some 1, ["alps"]⟩ : KBState).kb_texts ≠ [] ∧
     ((fun (_ : String) (_ : Nat) => (([7], [0]) : List Int × List Int)) "q" 1).1.length ≤ 1) ∧
    ((kb_search ⟨some 1, ["alps"]⟩
        (fun _ _ => ([7], [0])) "q" 1).results.length ≤ 1 ∧
     ∀ hit ∈ (kb_search ⟨some 1, ["alps"]⟩
        (fun _ _ => ([7], [0])) "q" 1).results,
       hit.index < (["alps"] : List String).length ∧
       hit.text = (["alps"] : List String).getD hit.index "") :=
  ⟨⟨by decide, by decide, by decide, by decide⟩,
   kb_search_bounded_and_verbatim ⟨some 1, ["alps"]⟩
     (fun _ _ => ([7], [0])) "q" 1
     (by decide) (by decide) (by decide) (by decide)⟩

/-- Claim C3: on an empty, uninitialized or absent index (or an empty
chunk-text list) `kb_search` returns the empty result list together
with the fixed explanatory message, for every query and every count. -/
theorem kb_search_empty_graceful
    (st : KBState) (search : String → Nat → List Int × List Int)
    (query : String) (top_k : Nat)
    (h : st.kb_index = none ∨ st.kb_index = some 0 ∨ st.kb_texts = []) :
    kb_search st search query top_k =
      { query := query, results := [], message := some "Knowledge base is empty." } := by
  unfold kb_search
  rw [if_pos h]

/-- Witness for C3 at the startup state of a missing knowledge base. -/
theorem kb_search_empty_graceful_witness :
    ((⟨some 0, []⟩ : KBState).kb_index = none ∨
     (⟨some 0, []⟩ : KBState).kb_index = some 0 ∨
     (⟨some 0, []⟩ : KBState).kb_texts = []) ∧
    kb_search ⟨some 0, []⟩ (fun _ _ => ([], [])) "anything" 5 =
      { query := "anything", results := [],
        message := some "Knowledge base is empty." } :=
  ⟨Or.inr (Or.inl rfl),
   kb_search_empty_graceful ⟨some 0, []⟩ (fun _ _ => ([], [])) "anything" 5
     (Or.inr (Or.inl rfl))⟩

/-- Helper: counts returned by a run of saves starting from a parsed
list `l` are `l.length + 1, l.length + 2, ...`. -/
theorem saveCounts_some (xs : List String) :
    ∀ l, saveCounts (some l) xs =
      (List.range xs.length).map (fun i => l.length + i + 1) := by
  induction xs with
  | nil => intro l; rfl
  | cons x xs ih =>
    intro l
    show (l ++ [x]).length :: saveCounts (some (l ++ [x])) xs = _
    rw [ih (l ++ [x]), List.length_cons, List.range_succ_eq_map]
    simp only [List.map_cons, List.map_map]
    have hf : (fun i => (l ++ [x]).length + i + 1) =
        ((fun i => l.length + i + 1) ∘ Nat.succ) := by
      funext i
      simp [List.length_append, Function.comp]
      omega
    rw [hf]
    simp [List.length_append]

/-- Helper: a missing or corrupt preferences file behaves like an empty
stored list. -/
theorem saveCounts_none (xs : List String) :
    saveCounts none xs = saveCounts (some []) xs := by
  cases xs <;> rfl

/-- Claim C4: saving a preference and then loading yields a list
containing it, and starting from an empty store (missing file or empty
stored list) the count returned by the n-th sequential save equals n. -/
theorem save_preference_roundtrip_and_counts :
    (∀ (file : PrefsFile) (x : String),
      x ∈ load_preferences (save_preference file x).2) ∧
    (∀ xs : List String,
      saveCounts none xs = (List.range xs.length).map (· + 1) ∧
      saveCounts (some []) xs = (List.range xs.length).map (· + 1)) := by
  constructor
  · intro file x
    show x ∈ (file.getD []) ++ [x]
    simp
  · intro xs
    have h : saveCounts (some []) xs = (List.range xs.length).map (· + 1) := by
      rw [saveCounts_some xs []]
      simp
    exact ⟨by rw [saveCounts_none, h], h⟩

/-- Claim C8: `load_preferences` returns the stored list when the file
parses, and the empty list when the read or parse fails, for every
stored list. -/
theorem load_preferences_stored_or_empty (l : List String) :
    load_preferences none = [] ∧ load_preferences (some l) = l :=
  ⟨rfl, rfl⟩

/-- Claim C9 counterexample: the record returned by `get_weather` is
not one constant value for all inputs, because it echoes the input
location (and date) back. -/
theorem get_weather_not_constant :
    get_weather "Paris" "today" ≠ get_weather "Rome" "today" := by
  intro h
  exact absurd (congrArg WeatherResult.location h) (by decide)

/-- Claim C9 amended: for every input, the forecast content of the
`get_weather` record (summary, temperature, precipitation chance,
source) is the same hardcoded constant, while the location and date
fields echo the inputs. -/
theorem get_weather_fixed_forecast (location date : String) :
    (get_weather location date).summary = "Partly cloudy with mild temperatures." ∧
    (get_weather location date).temperature_celsius = 24 ∧
    (get_weather location date).precipitation_chance = 1/5 ∧
    (get_weather location date).source = "mock_weather_service" ∧
    (get_weather location date).location = location ∧
    (get_weather location date).date = date :=
  ⟨rfl, rfl, rfl, rfl, rfl, rfl⟩


/-- Helper: appending to a non-empty string yields a non-empty string. -/
theorem append_ne_empty (s t : String) (hs : s ≠ "") : s ++ t ≠ "" := by
  intro h
  apply hs
  have hd := congrArg String.data h
  rw [String.data_append] at hd
  have hsd : s.data = [] := (List.append_eq_nil.mp hd).1
  cases s
  simpa using congrArg String.mk hsd

/-- Claim C5: each of the three failure modes of `web_search` and of
`search_flight_price` (missing credentials, a raised outbound request,
a non-200 response) produces a returned record with an empty results
list and a non-empty error string; the embedded functions are total,
reflecting that the originals catch these failures instead of raising. -/
theorem search_tools_degrade_gracefully
    (env : Env) (http : RequestParams → HttpOutcome)
    (query origin destination date : String) (n m : Nat) :
    (credsMissing env ∨ httpFailed (http (searchParams env query n)) →
      (web_search env http query n).results = [] ∧
      ∃ e, (web_search env http query n).error = some e ∧ e ≠ "") ∧
    (credsMissing env ∨
        httpFailed (http (searchParams env (flightQuery origin destination date) m)) →
      (search_flight_price env http origin destination date m).results = [] ∧
      ∃ e, (search_flight_price env http origin destination date m).error = some e ∧
        e ≠ "") := by
  have hcm : ∀ b : Bool,
      (!envTruthy env.custom_search_api_key || !envTruthy env.custom_search_cx) = b →
      (credsMissing env ↔ b = true) := by
    intro b hb
    subst hb
    unfold credsMissing
    cases envTruthy env.custom_search_api_key <;>
      cases envTruthy env.custom_search_cx <;> simp
  constructor
  · intro h
    unfold web_search
    by_cases hb : (!envTruthy env.custom_search_api_key ||
        !envTruthy env.custom_search_cx) = true
    · rw [if_pos hb]
      exact ⟨rfl, _, rfl, by decide⟩
    · rw [if_neg hb]
      rcases h with h | h
      · exact absurd (((hcm _ rfl).mp h)) hb
      · cases hout : http (searchParams env query n) with
        | exn e =>
          exact ⟨rfl, _, rfl, append_ne_empty _ _ (by decide)⟩
        | response status text items =>
          have hst : status ≠ 200 := by rw [hout] at h; exact h
          refine ⟨?_, "HTTP " ++ toString status ++ ": " ++ text, ?_,
            append_ne_empty _ _ (append_ne_empty _ _ (append_ne_empty _ _ (by decide)))⟩
          · simp [hst]
          · simp [hst]
  · intro h
    unfold search_flight_price
    by_cases hb : (!envTruthy env.custom_search_api_key ||
        !envTruthy env.custom_search_cx) = true
    · rw [if_pos hb]
      exact ⟨rfl, _, rfl, by decide⟩
    · rw [if_neg hb]
      rcases h with h | h
      · exact absurd (((hcm _ rfl).mp h)) hb
      · cases hout : http (searchParams env (flightQuery origin destination date) m) with
        | exn e =>
          exact ⟨rfl, _, rfl, append_ne_empty _ _ (by decide)⟩
        | response status text items =>
          have hst : status ≠ 200 := by rw [hout] at h; exact h
          refine ⟨?_, "HTTP " ++ toString status ++ ": " ++ text, ?_,
            append_ne_empty _ _ (append_ne_empty _ _ (append_ne_empty _ _ (by decide)))⟩
          · simp [hst]
          · simp [hst]

/-- Witness for C5 at an environment missing both credentials. -/
theorem search_tools_degrade_gracefully_witness :
    ((web_search ⟨none, none⟩ (fun _ => HttpOutcome.exn "down") "q" 3).results = [] ∧
     ∃ e, (web_search ⟨none, none⟩ (fun _ => HttpOutcome.exn "down") "q" 3).error =
       some e ∧ e ≠ "") ∧
    ((search_flight_price ⟨none, none⟩ (fun _ => HttpOutcome.exn "down")
        "Taipei" "Tokyo" "2026-01-01" 5).results = [] ∧
     ∃ e, (search_flight_price ⟨none, none⟩ (fun _ => HttpOutcome.exn "down")
        "Taipei" "Tokyo" "2026-01-01" 5).error = some e ∧ e ≠ "") := by
  have h := search_tools_degrade_gracefully ⟨none, none⟩
    (fun _ => HttpOutcome.exn "down") "q" "Taipei" "Tokyo" "2026-01-01" 3 5
  exact ⟨h.1 (Or.inl (Or.inl rfl)), h.2 (Or.inl (Or.inl rfl))⟩

/-- Claim C10: for every environment, every network behavior and every
input, `search_flight_price` returns exactly the results, error and
source that `web_search` returns on the pre-formatted flight query with
the same result cap; the records differ only in the identifying fields
each carries. -/
theorem flight_price_refines_web_search
    (env : Env) (http : RequestParams → HttpOutcome)
    (origin destination date : String) (n : Nat) :
    (search_flight_price env http origin destination date n).results =
      (web_search env http (flightQuery origin destination date) n).results ∧
    (search_flight_price env http origin destination date n).error =
      (web_search env http (flightQuery origin destination date) n).error ∧
    (search_flight_price env http origin destination date n).source =
      (web_search env http (flightQuery origin destination date) n).source ∧
    (search_flight_price env http origin destination date n).origin = origin ∧
    (search_flight_price env http origin destination date n).destination = destination ∧
    (search_flight_price env http origin destination date n).date = date ∧
    (web_search env http (flightQuery origin destination date) n).query =
      flightQuery origin destination date := by
  unfold web_search search_flight_price
  by_cases hb : (!envTruthy env.custom_search_api_key ||
      !envTruthy env.custom_search_cx) = true
  · rw [if_pos hb, if_pos hb]
    exact ⟨rfl, rfl, rfl, rfl, rfl, rfl, rfl⟩
  · rw [if_neg hb, if_neg hb]
    cases http (searchParams env (flightQuery origin destination date) n) with
    | exn e => exact ⟨rfl, rfl, rfl, rfl, rfl, rfl, rfl⟩
    | response status text items =>
      by_cases hst : status = 200
      · simp [hst]
      · simp [hst]

/-- Claim C6 counterexample: a generation turn whose one text fragment
carries surrounding whitespace is answered with the stripped text, so
the reply is not the concatenation of the emitted fragments. -/
theorem chat_reply_not_plain_concat :
    (chat_endpoint
      (RunOutcome.events [{ content := some { parts := [{ text := some " hi " }] } }])
      "u").response = "hi" ∧
    String.join (collectTexts
      [{ content := some { parts := [{ text := some " hi " }] } }]) = " hi " := by
  constructor <;> rfl

/-- Claim C6 amended: the reply is the whitespace-stripped concatenation
of every text fragment emitted during the turn; when that stripped
concatenation is empty the fixed fallback apology is returned instead;
and an exception during generation is returned as a message beginning
with the fixed error prefix (the embedded endpoint is total, reflecting
that the original catches the exception). -/
theorem chat_reply_stripped_concat (evs : List Event) (e u : String) :
    (chat_endpoint (RunOutcome.raises e) u).response =
      "Sorry, I encountered an error: " ++ e ∧
    (pyStrip (String.join (collectTexts evs)) ≠ "" →
      (chat_endpoint (RunOutcome.events evs) u).response =
        pyStrip (String.join (collectTexts evs))) ∧
    (pyStrip (String.join (collectTexts evs)) = "" →
      (chat_endpoint (RunOutcome.events evs) u).response =
        "Sorry, I could not generate a response.") := by
  refine ⟨rfl, ?_, ?_⟩
  · intro h
    simp only [chat_endpoint]
    rw [if_neg h]
  · intro h
    simp only [chat_endpoint]
    rw [if_pos h]

/-- Witness for C6 at one whitespace-padded fragment, one empty turn and
one raised generation. -/
theorem chat_reply_stripped_concat_witness :
    (chat_endpoint (RunOutcome.raises "net down") "u").response =
      "Sorry, I encountered an error: net down" ∧
    (chat_endpoint
      (RunOutcome.events [{ content := some { parts := [{ text := some " trip plan " }] } }])
      "u").response = "trip plan" ∧
    (chat_endpoint (RunOutcome.events []) "u").response =
      "Sorry, I could not generate a response." := by
  have h1 := chat_reply_stripped_concat
    [{ content := some { parts := [{ text := some " trip plan " }] } }] "net down" "u"
  have h2 := chat_reply_stripped_concat ([] : List Event) "net down" "u"
  refine ⟨h1.1, ?_, h2.2.2 rfl⟩
  have hne : pyStrip (String.join (collectTexts
      [{ content := some { parts := [{ text := some " trip plan " }] } }])) ≠ "" := by
    decide
  rw [h1.2.1 hne]
  rfl


/-- Helper: looking up a key just appended to a map that did not hold
it finds the appended value. -/
theorem lookup_append_singleton (l : List (String × String)) (u sid : String)
    (h : l.lookup u = none) : (l ++ [(u, sid)]).lookup u = some sid := by
  induction l with
  | nil => simp [List.lookup]
  | cons a t ih =>
    by_cases hau : u = a.1
    · subst hau
      simp [List.lookup] at h
    · have hbeq : (u == a.1) = false := by simpa using hau
      have ht : t.lookup u = none := by
        simpa [List.lookup, hbeq] using h
      simpa [List.lookup, hbeq] using ih ht

/-- Claim C7: on a session map with at most one entry per user, a
request for a user with no recorded session performs exactly one
creation and records the new session; a request for a recorded user
returns the recorded identifier with the state untouched; a repeated
request reuses the first answer without another creation; and the
at-most-one-entry invariant is preserved. -/
theorem session_map_single_session
    (newId : Nat → String) (st : SessionState) (u : String)
    (hnd : keysNodup st) :
    keysNodup (get_or_create_session_id newId st u).2 ∧
    (st.user_sessions.lookup u = none →
      (get_or_create_session_id newId st u).2.created = st.created + 1 ∧
      (get_or_create_session_id newId st u).2.user_sessions.lookup u =
        some (get_or_create_session_id newId st u).1) ∧
    (∀ sid, st.user_sessions.lookup u = some sid →
      get_or_create_session_id newId st u = (sid, st)) ∧
    get_or_create_session_id newId (get_or_create_session_id newId st u).2 u =
      ((get_or_create_session_id newId st u).1,
       (get_or_create_session_id newId st u).2) := by
  cases hl : st.user_sessions.lookup u with
  | some sid =>
    have hres : get_or_create_session_id newId st u = (sid, st) := by
      simp [get_or_create_session_id, hl]
    refine ⟨?_, ?_, ?_, ?_⟩
    · rw [hres]; exact hnd
    · intro hc; cases hc
    · intro sid' hs
      cases hs
      exact hres
    · rw [hres]
      simp [get_or_create_session_id, hl]
  | none =>
    have hres : get_or_create_session_id newId st u =
        (newId st.created,
         { user_sessions := st.user_sessions ++ [(u, newId st.created)]
           created := st.created + 1 }) := by
      simp [get_or_create_session_id, hl]
    have hnotkey : u ∉ st.user_sessions.map Prod.fst := by
      intro hmem
      obtain ⟨p, hp, hpe⟩ := List.mem_map.mp hmem
      exact lookup_none_not_key hl p hp hpe
    refine ⟨?_, ?_, ?_, ?_⟩
    · rw [hres]
      unfold keysNodup
      simp only [List.map_append, List.map_cons, List.map_nil]
      refine List.Nodup.append hnd (by simp) ?_
      intro a ha hb
      rw [List.mem_singleton] at hb
      subst hb
      exact hnotkey ha
    · intro _
      rw [hres]
      exact ⟨rfl, lookup_append_singleton _ _ _ hl⟩
    · intro sid hs
      cases hs
    · rw [hres]
      simp [get_or_create_session_id,
        lookup_append_singleton st.user_sessions u (newId st.created) hl]

/-- Witness for C7 on the empty session map with a counting id stub. -/
theorem session_map_single_session_witness :
    keysNodup { user_sessions := [], created := 0 } ∧
    (get_or_create_session_id (fun n => toString n)
      { user_sessions := [], created := 0 } "alice").2.created = 1 ∧
    (get_or_create_session_id (fun n => toString n)
      { user_sessions := [], created := 0 } "alice").2.user_sessions.lookup "alice" =
      some (get_or_create_session_id (fun n => toString n)
        { user_sessions := [], created := 0 } "alice").1 ∧
    get_or_create_session_id (fun n => toString n)
        (get_or_create_session_id (fun n => toString n)
          { user_sessions := [], created := 0 } "alice").2 "alice" =
      ((get_or_create_session_id (fun n => toString n)
          { user_sessions := [], created := 0 } "alice").1,
       (get_or_create_session_id (fun n => toString n)
          { user_sessions := [], created := 0 } "alice").2) := by
  have hnd : keysNodup { user_sessions := [], created := 0 } := by
    simp [keysNodup]
  have h := session_map_single_session (fun n => toString n)
    { user_sessions := [], created := 0 } "alice" hnd
  have hcreate := h.2.1 rfl
  exact ⟨hnd, hcreate.1, hcreate.2, h.2.2.2⟩

/-- Claim C2 (violated by the code): under the save-call contract alone,
no run of the builder writes the chunk-text JSON file at the fixed path
the tool layer requires, so the serving-layer load guard evaluates to
false on the set of files the builder produced and the persisted
knowledge base is never loaded at startup. -/
theorem build_rag_output_never_loadable
    (saveLocal : String → List String) (kbChunks prefChunks : List String)
    (hc : SaveLocalContract saveLocal) :
    KB_TEXTS_PATH ∉ build_rag_writes saveLocal kbChunks prefChunks ∧
    kb_load_guard
      (fun p => (build_rag_writes saveLocal kbChunks prefChunks).elem p) = false := by
  have hnot : KB_TEXTS_PATH ∉ build_rag_writes saveLocal kbChunks prefChunks := by
    intro hmem
    unfold build_rag_writes create_vector_store_writes at hmem
    rw [List.mem_append] at hmem
    rcases hmem with hmem | hmem
    · split at hmem
      · cases hmem
      · rcases hc _ _ hmem with h | h
        · exact absurd h (by decide)
        · exact absurd h (by decide)
    · split at hmem
      · cases hmem
      · rcases hc _ _ hmem with h | h
        · exact absurd h (by decide)
        · exact absurd h (by decide)
  refine ⟨hnot, ?_⟩
  unfold kb_load_guard
  have helem : (build_rag_writes saveLocal kbChunks prefChunks).elem KB_TEXTS_PATH
      = false := by
    cases helem : (build_rag_writes saveLocal kbChunks prefChunks).elem KB_TEXTS_PATH
    · rfl
    · exact absurd (List.mem_of_elem_eq_true helem) hnot
  simp only [helem, Bool.and_false]

/-- Witness for C2 with a save call that writes exactly its target
path. -/
theorem build_rag_output_never_loadable_witness :
    KB_TEXTS_PATH ∉ build_rag_writes (fun path => [path]) ["chunk"] ["pref"] ∧
    kb_load_guard
      (fun p => (build_rag_writes (fun path => [path]) ["chunk"] ["pref"]).elem p)
      = false := by
  apply build_rag_output_never_loadable
  intro p q hq
  rw [List.mem_singleton] at hq
  exact Or.inl hq
